import Mathlib

/-!
A shallow embedding of `src/bot.py` (a Telegram file-relay bot) and proofs
about its relay pipeline.

The Python source is asynchronous and effectful; we embed it as pure Lean
functions over explicit oracle records (`UploadWorld`, `World`) that fix the
outcome of every external effect (filesystem, network, chat platform).
Exceptions are made explicit: a Python operation that can raise is given a
Bool (or variant) oracle, and the control flow of `try/except/finally` is
transcribed branch by branch.  Every filesystem operation whose failure the
source handles explicitly has an oracle: `os.makedirs` (lines 57-63) and
`os.remove` in the `finally` clause (lines 111-116), where a failed removal
is caught, logged, and leaves the staged file in place.
-/

namespace TelegramBot

/-- A Telegram document attachment: `msg.document` in the source.
`file_name` is `Option String` because the platform may omit it. -/
structure Document where
  file_id : String
  file_name : Option String
deriving DecidableEq, Repr

/-- One entry of a photo's resolution list: an element of `msg.photo`. -/
structure PhotoSize where
  file_id : String
deriving DecidableEq, Repr

/-- A Telegram video attachment: `msg.video` in the source. -/
structure Video where
  file_id : String
  file_name : Option String
deriving DecidableEq, Repr

/-- An inbound Telegram message (`update.message`).  `message_id` and `text`
are content the classifier must ignore; `photo` is the ordered resolution
list (Python truthiness of the tuple = nonemptiness of the list). -/
structure Message where
  message_id : Nat
  text : Option String
  document : Option Document
  photo : List PhotoSize
  video : Option Video
deriving DecidableEq, Repr

/-- Python's `x or d` for an optional string `x`: the default is used both
when the value is `None` and when it is the empty string (both falsy). -/
def pyOr (x : Option String) (d : String) : String :=
  match x with
  | none => d
  | some s => if s = "" then d else s

/-- The attachment classification performed inline in `handle_file`
(src/bot.py lines 66-79): check `msg.document`, then `msg.photo`, then
`msg.video`, in that order; produce `(file_id, file_name)` or `none` when no
branch matches. -/
def classify (msg : Message) : Option (String × String) :=
  match msg.document with
  | some d => some (d.file_id, pyOr d.file_name "document")
  | none =>
    match msg.photo.getLast? with
    | some p => some (p.file_id, "photo_" ++ p.file_id ++ ".jpg")
    | none =>
      match msg.video with
      | some v => some (v.file_id, pyOr v.file_name ("video_" ++ v.file_id ++ ".mp4"))
      | none => none

/-- Outcome of the `requests.put` call inside `upload_to_external_service`:
either an HTTP response (status code and body text) was received, or a
network-level `requests.exceptions.RequestException` was raised. -/
inductive PutOutcome where
  | ok (status : Nat) (body : String)
  | netError
deriving DecidableEq, Repr

/-- Oracle for one call of `upload_to_external_service`: whether
`open(file_path, 'rb')` succeeds, and what the PUT attempt would yield. -/
structure UploadWorld where
  openOk : Bool
  putRes : PutOutcome
deriving DecidableEq, Repr

/-- The Python exceptions relevant to `upload_to_external_service`:
`HTTPError` (raised by `raise_for_status`) and the network error are both
`requests.exceptions.RequestException`; a failed `open` raises `OSError`. -/
inductive PyExn where
  | httpError (status : Nat)
  | requestExn
  | osError
deriving DecidableEq, Repr

/-- Which exceptions the `except requests.exceptions.RequestException`
clause catches. -/
def isRequestException : PyExn → Bool
  | .httpError _ => true
  | .requestExn => true
  | .osError => false

/-- `response.raise_for_status()` raises `HTTPError` exactly for status
codes in 400..599 (client and server error ranges). -/
def statusIsError (status : Nat) : Bool :=
  400 ≤ status && status < 600

/-- Python's `str.strip()` on a character list: drop whitespace from both
ends. -/
def stripChars (l : List Char) : List Char :=
  ((l.dropWhile Char.isWhitespace).reverse.dropWhile Char.isWhitespace).reverse

/-- Python's `str.strip()`: the string with leading and trailing whitespace
removed (`response.text.strip()` in the source). -/
def strip (s : String) : String := ⟨stripChars s.data⟩

/-- The body of the `try` in `upload_to_external_service` (src/bot.py lines
30-40): open the file, PUT its bytes, `raise_for_status`, return the
stripped response text; `Except.error` is a raised exception. -/
def uploadBody (w : UploadWorld) : Except PyExn String :=
  if w.openOk then
    match w.putRes with
    | .netError => .error .requestExn
    | .ok status body =>
      if statusIsError status then .error (.httpError status)
      else .ok (strip body)
  else .error .osError

/-- Number of HTTP PUT attempts one call of `upload_to_external_service`
makes: the PUT runs iff `open` succeeded, and is never retried. -/
def putAttempts (w : UploadWorld) : Nat :=
  if w.openOk then 1 else 0

/-- `upload_to_external_service` (src/bot.py lines 27-46): the `try` body
wrapped in `except RequestException: return None` and
`except Exception: return None`. -/
def upload_to_external_service (w : UploadWorld) : Option String :=
  match uploadBody w with
  | .ok link => some link
  | .error e => if isRequestException e then none else none

/-- Oracle for one run of `handle_file`.  Each Bool fixes whether the
corresponding effectful call succeeds (`false` = the call raises):
`tempDirExists` is `os.path.exists("/tmp")`, `mkdirOk` is `os.makedirs`,
the `...ReplyOk` flags are the five `msg.reply_text` call sites in source
order, `getFileOk` is `context.bot.get_file`, `downloadOk` is
`bot_file.download_to_drive`, `leftoverOnFail` says whether a failed
download nevertheless left a file at the staging path (a download that
raised after writing some bytes), and `removeOk` is the `os.remove` in the
`finally` clause (its failure is caught at lines 115-116 and leaves the
staged file in place). -/
structure World where
  tempDirExists : Bool
  mkdirOk : Bool
  storageReplyOk : Bool
  noInfoReplyOk : Bool
  ackOk : Bool
  getFileOk : Bool
  downloadOk : Bool
  leftoverOnFail : Bool
  uploadW : UploadWorld
  linkReplyOk : Bool
  failReplyOk : Bool
  errReplyOk : Bool
  removeOk : Bool
deriving DecidableEq, Repr

/-- Observable outcome of one `handle_file` run.
`replies` lists the texts of the `reply_text` calls that completed
successfully, in order; `madeDir` records a successful `os.makedirs` of the
staging directory; `getFileCalled` and `uploadCalled` record whether
retrieval and upload were reached; `fileWritten` records that the download
left a file at the staging path; `removeAttempted` records that the
`finally` clause called `os.remove` (it does so exactly when
`temp_file_path` is assigned and the file exists); `fileExistsAtEnd` is
whether that file still exists once the run (including its `finally` block)
terminates — `true` when the removal was attempted but raised `OSError`;
`raised` is whether `handle_file` propagated an exception to the framework
(a failed removal never propagates: lines 115-116 swallow it). -/
structure RunResult where
  replies : List String
  madeDir : Bool
  getFileCalled : Bool
  fileWritten : Bool
  uploadCalled : Bool
  removeAttempted : Bool
  fileExistsAtEnd : Bool
  raised : Bool
deriving DecidableEq, Repr

/-- A run that did nothing observable. -/
def emptyRun : RunResult :=
  { replies := []
    madeDir := false
    getFileCalled := false
    fileWritten := false
    uploadCalled := false
    removeAttempted := false
    fileExistsAtEnd := false
    raised := false }

/-- The `try/except/finally` part of `handle_file` (src/bot.py lines
87-116), entered after the acknowledgment succeeded.  `ack` is the list of
replies already sent, `madeDir` whether the staging directory was created
by this run.  The `finally` clause calls `os.remove` whenever
`temp_file_path` was assigned and the file exists; when that removal raises
`OSError` it is caught and logged (lines 115-116), so the staged file
remains (`fileExistsAtEnd = true`) and nothing propagates. -/
def handleTryBlock (w : World) (ack : List String) (madeDir : Bool) :
    RunResult :=
  if w.getFileOk then
    -- temp_file_path is assigned here; the download runs next.
    if w.downloadOk then
      -- File staged; upload never raises (it returns Option).
      match upload_to_external_service w.uploadW with
      | some link =>
        if w.linkReplyOk then
          { replies := ack ++ ["Download link:\n" ++ link]
            madeDir := madeDir
            getFileCalled := true
            fileWritten := true
            uploadCalled := true
            removeAttempted := true
            fileExistsAtEnd := !w.removeOk
            raised := false }
        else
          -- reply_text raised inside try → except replies → finally removes
          { replies := ack ++
              (if w.errReplyOk
               then ["An error occurred while processing your file."]
               else [])
            madeDir := madeDir
            getFileCalled := true
            fileWritten := true
            uploadCalled := true
            removeAttempted := true
            fileExistsAtEnd := !w.removeOk
            raised := !w.errReplyOk }
      | none =>
        if w.failReplyOk then
          { replies := ack ++ ["Sorry, the upload failed."]
            madeDir := madeDir
            getFileCalled := true
            fileWritten := true
            uploadCalled := true
            removeAttempted := true
            fileExistsAtEnd := !w.removeOk
            raised := false }
        else
          { replies := ack ++
              (if w.errReplyOk
               then ["An error occurred while processing your file."]
               else [])
            madeDir := madeDir
            getFileCalled := true
            fileWritten := true
            uploadCalled := true
            removeAttempted := true
            fileExistsAtEnd := !w.removeOk
            raised := !w.errReplyOk }
    else
      -- download_to_drive raised; a partial file may exist, and the
      -- finally clause removes it if so (temp_file_path is assigned).
      { replies := ack ++
          (if w.errReplyOk
           then ["An error occurred while processing your file."]
           else [])
        madeDir := madeDir
        getFileCalled := true
        fileWritten := w.leftoverOnFail
        uploadCalled := false
        removeAttempted := w.leftoverOnFail
        fileExistsAtEnd := w.leftoverOnFail && !w.removeOk
        raised := !w.errReplyOk }
  else
    -- get_file raised before temp_file_path was assigned: the finally
    -- clause's `'temp_file_path' in locals()` guard skips removal.
    { replies := ack ++
        (if w.errReplyOk
         then ["An error occurred while processing your file."]
         else [])
      madeDir := madeDir
      getFileCalled := true
      fileWritten := false
      uploadCalled := false
      removeAttempted := false
      fileExistsAtEnd := false
      raised := !w.errReplyOk }

/-- The part of `handle_file` after the staging directory is known to exist
(src/bot.py lines 65-116): attachment classification (lines 66-79), the
`not file_id` guard (line 81), the acknowledgment (line 85, outside any
`try`), then the `try/except/finally`.  `madeDir` records whether this run
created the staging directory. -/
def handleAfterDir (msg : Message) (w : World) (madeDir : Bool) : RunResult :=
  match classify msg with
  | none => { emptyRun with madeDir := madeDir }
  | some (file_id, _file_name) =>
    if file_id = "" then
      if w.noInfoReplyOk then
        { emptyRun with
            madeDir := madeDir
            replies := ["Could not get file information."] }
      else { emptyRun with madeDir := madeDir, raised := true }
    else
      if w.ackOk then
        handleTryBlock w ["Processing your file, please wait..."] madeDir
      else
        -- the acknowledgment raised outside the try: the exception
        -- propagates and the run ends here.
        { emptyRun with madeDir := madeDir, raised := true }

/-- `handle_file` (src/bot.py lines 49-116), transcribed branch by branch:
the staging-directory check and creation run first (lines 56-63, before the
attachment classification), then the rest of the handler. -/
def handle_file (msg : Message) (w : World) : RunResult :=
  if w.tempDirExists then
    handleAfterDir msg w false
  else if w.mkdirOk then
    handleAfterDir msg w true
  else if w.storageReplyOk then
    { emptyRun with
        replies := ["Server error: Could not create temporary storage."] }
  else
    { emptyRun with raised := true }

/-! ### Sample inputs used by witnesses and counterexamples -/

/-- The spec's scenario: a Document event with identifier `"doc123"` and
filename `"report.pdf"`. -/
def docMsg : Message :=
  { message_id := 1
    text := none
    document := some { file_id := "doc123", file_name := some "report.pdf" }
    photo := []
    video := none }

/-- A text-only event: no document, photo or video attachment. -/
def textMsg : Message :=
  { message_id := 2
    text := some "hello"
    document := none
    photo := []
    video := none }

/-- A world where every effect succeeds and the upload sink answers
`200` with body `"https://host/report.pdf"`. -/
def allOkWorld : World :=
  { tempDirExists := true
    mkdirOk := true
    storageReplyOk := true
    noInfoReplyOk := true
    ackOk := true
    getFileOk := true
    downloadOk := true
    leftoverOnFail := false
    uploadW := { openOk := true, putRes := .ok 200 "https://host/report.pdf" }
    linkReplyOk := true
    failReplyOk := true
    errReplyOk := true
    removeOk := true }

/-! ### Shared helper lemmas -/

/-- Cleanup behaviour of the `try/except/finally`: on every branch the
`finally` clause attempts removal exactly when a staged file exists, and
the file survives the run exactly when the removal was attempted but
`os.remove` failed. -/
theorem handleTryBlock_cleanup (w : World) (ack : List String) (md : Bool) :
    (handleTryBlock w ack md).removeAttempted =
      (handleTryBlock w ack md).fileWritten ∧
    (handleTryBlock w ack md).fileExistsAtEnd =
      ((handleTryBlock w ack md).fileWritten && !w.removeOk) := by
  unfold handleTryBlock
  repeat' split
  all_goals constructor <;> simp

/-- Cleanup behaviour of every branch of `handleAfterDir`. -/
theorem handleAfterDir_cleanup (msg : Message) (w : World) (md : Bool) :
    (handleAfterDir msg w md).removeAttempted =
      (handleAfterDir msg w md).fileWritten ∧
    (handleAfterDir msg w md).fileExistsAtEnd =
      ((handleAfterDir msg w md).fileWritten && !w.removeOk) := by
  unfold handleAfterDir
  repeat' split
  all_goals first
    | apply handleTryBlock_cleanup
    | constructor <;> rfl

/-- Cleanup behaviour of every exit path of `handle_file`: removal of the
staged file is attempted exactly when one exists, and the file survives the
run exactly when that removal failed. -/
theorem handle_file_cleanup (msg : Message) (w : World) :
    (handle_file msg w).removeAttempted = (handle_file msg w).fileWritten ∧
    (handle_file msg w).fileExistsAtEnd =
      ((handle_file msg w).fileWritten && !w.removeOk) := by
  unfold handle_file
  repeat' split
  all_goals first
    | apply handleAfterDir_cleanup
    | constructor <;> rfl

/-- Dispatch lemma: when the staging directory exists or its creation
succeeds, `handle_file` continues with `handleAfterDir`, with `madeDir`
recording whether this run created the directory. -/
theorem handle_file_to_afterDir (msg : Message) (w : World)
    (hdir : w.tempDirExists = true ∨ w.mkdirOk = true) :
    handle_file msg w = handleAfterDir msg w (!w.tempDirExists) := by
  unfold handle_file
  cases hte : w.tempDirExists with
  | true => simp
  | false =>
    rcases hdir with h | h
    · rw [hte] at h; exact absurd h (by simp)
    · simp [h]

/-- Dispatch lemma: a classified event with a nonempty identifier and a
successful acknowledgment reaches the `try` block. -/
theorem handleAfterDir_to_try (msg : Message) (w : World) (md : Bool)
    (fid name : String) (hc : classify msg = some (fid, name))
    (hid : fid ≠ "") (hack : w.ackOk = true) :
    handleAfterDir msg w md =
      handleTryBlock w ["Processing your file, please wait..."] md := by
  unfold handleAfterDir
  simp [hc, hid, hack]

/-- When retrieval and download succeed and the upload returns a link, the
`try` block appends exactly the download-link reply. -/
theorem handleTryBlock_replies_success (w : World) (ack : List String)
    (md : Bool) (u : String)
    (hget : w.getFileOk = true) (hdl : w.downloadOk = true)
    (hup : upload_to_external_service w.uploadW = some u)
    (hlr : w.linkReplyOk = true) :
    (handleTryBlock w ack md).replies = ack ++ ["Download link:\n" ++ u] := by
  unfold handleTryBlock
  simp [hget, hdl, hup, hlr]

/-- When retrieval and download succeed and the upload fails, the `try`
block appends exactly the upload-failure reply. -/
theorem handleTryBlock_replies_uploadFail (w : World) (ack : List String)
    (md : Bool)
    (hget : w.getFileOk = true) (hdl : w.downloadOk = true)
    (hup : upload_to_external_service w.uploadW = none)
    (hfr : w.failReplyOk = true) :
    (handleTryBlock w ack md).replies = ack ++ ["Sorry, the upload failed."] := by
  unfold handleTryBlock
  simp [hget, hdl, hup, hfr]

/-! ### Claim theorems -/

/-- A world identical to `allOkWorld` except that the `os.remove` in the
`finally` clause raises `OSError`. -/
def removeFailWorld : World := { allOkWorld with removeOk := false }

/-- Counterexample to C1 as stated: in a run that staged the file and whose
`os.remove` raises, the failure is caught and logged (bot.py lines 115-116)
and the staged file still exists when the run terminates. -/
theorem c1_counterexample :
    (handle_file docMsg removeFailWorld).fileWritten = true ∧
    (handle_file docMsg removeFailWorld).fileExistsAtEnd = true := by decide

/-- C1 (amended): in every relay run in which a staged file was created,
the cleanup attempts to delete it on every exit path — successful upload,
upload failure, retrieval failure, and any unexpected exception raised
mid-run (here: every oracle world whatsoever) — and the staged file no
longer exists when the run terminates provided the deletion itself
succeeds; a failed `os.remove` is caught and logged and leaves the file in
place. -/
theorem c1_staged_file_removed (msg : Message) (w : World)
    (hstaged : (handle_file msg w).fileWritten = true) :
    (handle_file msg w).removeAttempted = true ∧
    (w.removeOk = true → (handle_file msg w).fileExistsAtEnd = false) := by
  obtain ⟨h1, h2⟩ := handle_file_cleanup msg w
  refine ⟨h1.trans hstaged, fun hrm => ?_⟩
  rw [h2, hstaged, hrm]
  rfl

/-- Witness for C1 (amended) at the spec's Document scenario in an
all-success world. -/
theorem c1_staged_file_removed_witness :
    (handle_file docMsg allOkWorld).removeAttempted = true ∧
    (handle_file docMsg allOkWorld).fileExistsAtEnd = false := by
  have h := c1_staged_file_removed docMsg allOkWorld (by decide)
  exact ⟨h.1, h.2 rfl⟩

/-- C2: classification yields, for a Document, the document identifier with
its stated filename (the literal "document" when that is absent or empty,
per Python `or`); for a Photo, the last resolution entry's identifier with
the synthesized "photo_<id>.jpg" name; for a Video, the video identifier
with its stated filename or the synthesized "video_<id>.mp4" name — checked
in the order document, photo, video, stopping at the first populated
variant. -/
theorem c2_classification (msg : Message) :
    (∀ d, msg.document = some d →
      classify msg = some (d.file_id, pyOr d.file_name "document")) ∧
    (msg.document = none → ∀ p, msg.photo.getLast? = some p →
      classify msg = some (p.file_id, "photo_" ++ p.file_id ++ ".jpg")) ∧
    (msg.document = none → msg.photo = [] → ∀ v, msg.video = some v →
      classify msg = some (v.file_id,
        pyOr v.file_name ("video_" ++ v.file_id ++ ".mp4"))) := by
  refine ⟨?_, ?_, ?_⟩ <;> intros <;> simp_all [classify]

/-- Witness for C2 at the Document scenario. -/
theorem c2_classification_witness :
    classify docMsg = some ("doc123", "report.pdf") :=
  (c2_classification docMsg).1 ⟨"doc123", some "report.pdf"⟩ rfl

/-- C3: when the staging directory is available, the event classifies with
a nonempty identifier, acknowledgment, retrieval and download succeed, the
upload returns the retrieval URL `u`, and the reply sends deliver, then the
run's replies are exactly the acknowledgment followed by
"Download link:\n" ++ u — so the final reply is the labelled link. -/
theorem c3_success_reply (msg : Message) (w : World) (fid name u : String)
    (hdir : w.tempDirExists = true ∨ w.mkdirOk = true)
    (hc : classify msg = some (fid, name)) (hid : fid ≠ "")
    (hack : w.ackOk = true) (hget : w.getFileOk = true)
    (hdl : w.downloadOk = true)
    (hup : upload_to_external_service w.uploadW = some u)
    (hlr : w.linkReplyOk = true) :
    (handle_file msg w).replies =
      ["Processing your file, please wait...", "Download link:\n" ++ u] := by
  rw [handle_file_to_afterDir msg w hdir,
    handleAfterDir_to_try msg w (!w.tempDirExists) fid name hc hid hack,
    handleTryBlock_replies_success w _ (!w.tempDirExists) u hget hdl hup hlr]
  rfl

/-- Witness for C3: the spec scenario — Document "doc123"/"report.pdf",
sink answers "https://host/report.pdf", final reply is the labelled
link. -/
theorem c3_success_reply_witness :
    (handle_file docMsg allOkWorld).replies =
      ["Processing your file, please wait...",
       "Download link:\nhttps://host/report.pdf"] :=
  c3_success_reply docMsg allOkWorld "doc123" "report.pdf"
    "https://host/report.pdf" (Or.inl rfl) (by decide) (by decide)
    rfl rfl rfl (by decide) rfl

/-- Counterexample to C4 as stated: when opening the staged file fails, the
upload operation makes zero HTTP PUT attempts, not exactly one. -/
theorem c4_counterexample :
    putAttempts { openOk := false, putRes := PutOutcome.netError } ≠ 1 := by
  decide

/-- C4 (amended): each call makes at most one HTTP PUT attempt (exactly one
whenever the staged file opens; none when opening fails), never retries;
the result is the stripped response body when the status is outside the
HTTP error range 400-599, and a failure (`none`) when the status is in
400-599, a network error occurs, or any other unexpected error (such as a
failed open) occurs. -/
theorem c4_upload_single_attempt (uw : UploadWorld) :
    putAttempts uw ≤ 1 ∧
    (uw.openOk = true → putAttempts uw = 1) ∧
    (∀ status body, uw.openOk = true → uw.putRes = PutOutcome.ok status body →
      statusIsError status = false →
      upload_to_external_service uw = some (strip body)) ∧
    (∀ status body, uw.putRes = PutOutcome.ok status body →
      statusIsError status = true → upload_to_external_service uw = none) ∧
    (uw.putRes = PutOutcome.netError → upload_to_external_service uw = none) ∧
    (uw.openOk = false → upload_to_external_service uw = none) := by
  obtain ⟨op, pr⟩ := uw
  refine ⟨?_, ?_, ?_, ?_, ?_, ?_⟩ <;> cases op <;> cases pr <;> intros <;>
    simp_all [putAttempts, upload_to_external_service, uploadBody,
      isRequestException]

/-- Witness for C4 (amended): a 200 response with body " https://x " makes
one PUT attempt and yields the stripped link. -/
theorem c4_upload_single_attempt_witness :
    putAttempts { openOk := true, putRes := PutOutcome.ok 200 " https://x " } = 1 ∧
    upload_to_external_service
      { openOk := true, putRes := PutOutcome.ok 200 " https://x " } =
      some "https://x" := by
  have h := c4_upload_single_attempt
    { openOk := true, putRes := PutOutcome.ok 200 " https://x " }
  exact ⟨h.2.1 rfl,
    (h.2.2.1 200 " https://x " rfl rfl (by decide)).trans (by decide)⟩

/-- A world identical to `allOkWorld` except that the PUT raises a
network-level error. -/
def netFailWorld : World :=
  { allOkWorld with
      uploadW := { openOk := true, putRes := PutOutcome.netError } }

/-- A world where the upload fails with a network error and the
`os.remove` in the `finally` clause also raises. -/
def netFailRemoveFailWorld : World := { netFailWorld with removeOk := false }

/-- Counterexample to C5 as stated: in a run whose upload fails by network
error, the final reply is exactly "Sorry, the upload failed.", yet when the
`os.remove` of the staged file raises, the error is swallowed (bot.py lines
115-116) and the staged file still exists after the run. -/
theorem c5_counterexample :
    (handle_file docMsg netFailRemoveFailWorld).replies =
      ["Processing your file, please wait...", "Sorry, the upload failed."] ∧
    (handle_file docMsg netFailRemoveFailWorld).fileExistsAtEnd = true := by
  decide

/-- C5 (amended): when the run reaches the upload and the upload fails
(network error or non-success status both yield `none`), the replies are
exactly the acknowledgment followed by "Sorry, the upload failed.", and the
staged file does not exist after the run provided its deletion succeeds; a
failed deletion is swallowed and leaves the file. -/
theorem c5_upload_failure_reply (msg : Message) (w : World) (fid name : String)
    (hdir : w.tempDirExists = true ∨ w.mkdirOk = true)
    (hc : classify msg = some (fid, name)) (hid : fid ≠ "")
    (hack : w.ackOk = true) (hget : w.getFileOk = true)
    (hdl : w.downloadOk = true)
    (hup : upload_to_external_service w.uploadW = none)
    (hfr : w.failReplyOk = true) (hrm : w.removeOk = true) :
    (handle_file msg w).replies =
      ["Processing your file, please wait...", "Sorry, the upload failed."] ∧
    (handle_file msg w).fileExistsAtEnd = false := by
  constructor
  · rw [handle_file_to_afterDir msg w hdir,
      handleAfterDir_to_try msg w (!w.tempDirExists) fid name hc hid hack,
      handleTryBlock_replies_uploadFail w _ (!w.tempDirExists) hget hdl hup hfr]
    rfl
  · rw [(handle_file_cleanup msg w).2, hrm]
    simp

/-- Witness for C5 (amended): a network failure during upload, with a
successful deletion, yields exactly the failure reply and no staged file at
the end. -/
theorem c5_upload_failure_reply_witness :
    (handle_file docMsg netFailWorld).replies =
      ["Processing your file, please wait...", "Sorry, the upload failed."] ∧
    (handle_file docMsg netFailWorld).fileExistsAtEnd = false :=
  c5_upload_failure_reply docMsg netFailWorld "doc123" "report.pdf"
    (Or.inl rfl) (by decide) (by decide) rfl rfl rfl (by decide) rfl rfl

/-- A world identical to `allOkWorld` except that the staging directory is
absent (so `os.makedirs` runs and succeeds). -/
def noDirWorld : World := { allOkWorld with tempDirExists := false }

/-- Counterexample to C6 as stated: for a text-only event (no attachment)
in a world where the staging directory is absent, handling the event still
performs a filesystem write — it creates the staging directory, because the
directory check and creation run before classification. -/
theorem c6_counterexample :
    classify textMsg = none ∧
    (handle_file textMsg noDirWorld).madeDir = true := by decide

/-- C6 (amended): an event with no document/photo/video attachment never
stages a file and never reaches retrieval or upload; and provided the
staging directory already exists, the run sends no reply and performs no
filesystem writes at all (the run is observationally empty).  When the
directory is absent, the pre-classification directory setup may still
create it or send the storage-error reply. -/
theorem c6_no_attachment_silent (msg : Message) (w : World)
    (hc : classify msg = none) :
    (handle_file msg w).fileWritten = false ∧
    (handle_file msg w).getFileCalled = false ∧
    (handle_file msg w).uploadCalled = false ∧
    (w.tempDirExists = true → handle_file msg w = emptyRun) := by
  unfold handle_file handleAfterDir
  cases hte : w.tempDirExists <;>
    cases hmk : w.mkdirOk <;>
      cases hsr : w.storageReplyOk <;>
        simp [hc, emptyRun]

/-- Witness for C6 (amended): a text-only event in an all-success world
(staging directory present) does nothing observable. -/
theorem c6_no_attachment_silent_witness :
    handle_file textMsg allOkWorld = emptyRun :=
  (c6_no_attachment_silent textMsg allOkWorld (by decide)).2.2.2 rfl

/-- A world identical to `allOkWorld` except that sending the
acknowledgment reply raises. -/
def ackFailWorld : World := { allOkWorld with ackOk := false }

/-- Counterexample to C7 as stated: for the Document event, when the
acknowledgment send fails, the run does not continue to retrieval — the
acknowledgment is outside the `try`, so the exception propagates and the
run ends with no retrieval call. -/
theorem c7_counterexample :
    (handle_file docMsg ackFailWorld).getFileCalled = false ∧
    (handle_file docMsg ackFailWorld).raised = true := by decide

/-- C7 (amended): if sending the acknowledgment fails, the run terminates
immediately: no retrieval, staging or upload occurs; and on the path that
actually reached the acknowledgment (directory available, classified event
with nonempty identifier), the exception propagates out of the handler and
no reply at all is delivered. -/
theorem c7_ack_failure_fatal (msg : Message) (w : World)
    (hack : w.ackOk = false) :
    (handle_file msg w).getFileCalled = false ∧
    (handle_file msg w).fileWritten = false ∧
    (handle_file msg w).uploadCalled = false ∧
    (∀ fid name, (w.tempDirExists = true ∨ w.mkdirOk = true) →
      classify msg = some (fid, name) → fid ≠ "" →
      (handle_file msg w).raised = true ∧ (handle_file msg w).replies = []) := by
  refine ⟨?_, ?_, ?_, ?_⟩
  · unfold handle_file handleAfterDir
    repeat' split
    all_goals simp_all [emptyRun]
  · unfold handle_file handleAfterDir
    repeat' split
    all_goals simp_all [emptyRun]
  · unfold handle_file handleAfterDir
    repeat' split
    all_goals simp_all [emptyRun]
  · intro fid name hdir hc hid
    rw [handle_file_to_afterDir msg w hdir]
    unfold handleAfterDir
    simp [hc, hid, hack, emptyRun]

/-- Witness for C7 (amended): the Document event with a failing
acknowledgment performs no upload and delivers no reply. -/
theorem c7_ack_failure_fatal_witness :
    (handle_file docMsg ackFailWorld).uploadCalled = false ∧
    (handle_file docMsg ackFailWorld).replies = [] := by
  have h := c7_ack_failure_fatal docMsg ackFailWorld rfl
  exact ⟨h.2.2.1,
    (h.2.2.2 "doc123" "report.pdf" (Or.inl rfl) (by decide) (by decide)).2⟩

/-- C8: when the staging directory is absent and its creation fails, the
run sends exactly the storage-error reply and terminates: no retrieval, no
staging, no upload, and no exception escapes the handler. -/
theorem c8_storage_failure (msg : Message) (w : World)
    (h1 : w.tempDirExists = false) (h2 : w.mkdirOk = false)
    (h3 : w.storageReplyOk = true) :
    handle_file msg w =
      { emptyRun with
          replies := ["Server error: Could not create temporary storage."] } := by
  unfold handle_file
  simp [h1, h2, h3]

/-- A world identical to `allOkWorld` except that the staging directory is
absent and `os.makedirs` raises. -/
def storageFailWorld : World :=
  { allOkWorld with tempDirExists := false, mkdirOk := false }

/-- Witness for C8: even for a Document event, a failed directory creation
yields only the storage-error reply and an otherwise empty run. -/
theorem c8_storage_failure_witness :
    handle_file docMsg storageFailWorld =
      { emptyRun with
          replies := ["Server error: Could not create temporary storage."] } :=
  c8_storage_failure docMsg storageFailWorld rfl rfl rfl

/-- C9: classification is a pure function of the event's attachment content
(document, photo list, video); two events agreeing on those fields classify
identically, whatever their other content — hence classifying the same
event twice yields the same result. -/
theorem c9_classify_pure (m1 m2 : Message)
    (hd : m1.document = m2.document) (hp : m1.photo = m2.photo)
    (hv : m1.video = m2.video) :
    classify m1 = classify m2 := by
  unfold classify
  rw [hd, hp, hv]

/-- The Document event with different message id and text content but the
same attachment fields as `docMsg`. -/
def docMsgOther : Message :=
  { docMsg with message_id := 99, text := some "caption" }

/-- Witness for C9: the two Document events classify identically. -/
theorem c9_classify_pure_witness :
    classify docMsg = classify docMsgOther :=
  c9_classify_pure docMsg docMsgOther rfl rfl rfl

/-- C10: the upload operation never propagates an exception — every raised
exception inside it (failed open, network error, bad HTTP status) is caught
and returned as the same absent result `none`; consequently, in a run where
every effect other than the upload behaves, the orchestrator's
unexpected-exception branch is never triggered, whatever the upload
world. -/
theorem c10_upload_never_raises (uw : UploadWorld) :
    (∀ e, uploadBody uw = Except.error e →
      upload_to_external_service uw = none) ∧
    (∀ msg w, w.storageReplyOk = true → w.noInfoReplyOk = true →
      w.ackOk = true → w.getFileOk = true → w.downloadOk = true →
      w.linkReplyOk = true → w.failReplyOk = true →
      (handle_file msg w).raised = false) := by
  constructor
  · intro e he
    simp [upload_to_external_service, he]
  · intro msg w h1 h2 h3 h4 h5 h6 h7
    unfold handle_file handleAfterDir handleTryBlock
    repeat' split
    all_goals simp_all [emptyRun]

/-- Witness for C10: a failed open yields `none`, and a Document run whose
upload raises a network error ends without any escaped exception. -/
theorem c10_upload_never_raises_witness :
    upload_to_external_service { openOk := false, putRes := PutOutcome.netError } = none ∧
    (handle_file docMsg netFailWorld).raised = false :=
  ⟨(c10_upload_never_raises
      { openOk := false, putRes := PutOutcome.netError }).1 PyExn.osError rfl,
   (c10_upload_never_raises netFailWorld.uploadW).2 docMsg netFailWorld
     rfl rfl rfl rfl rfl rfl rfl⟩

end TelegramBot
